import Mathlib

/-!
# Verification of the utaten_epub lyric downloader

A shallow embedding of `src/main.rs` of the `utaten_epub` repository.

The program reads a list of song queries, resolves each to a lyrics page on
`https://utaten.com` via its search endpoint, extracts three regions from the
fetched page (title, metadata, body), reassembles them under the page's
`article` element, and writes the serialized result to
`lyrics/<name>.html`, skipping songs whose file already exists.

Modelling choices:

* HTML trees are the inductive `Node`.  An element carries its tag name, its
  list of CSS classes, its attribute list and its children.  The class list
  mirrors the `class` attribute (kuchiki keeps both views in sync; fixtures
  here set both consistently).
* kuchiki's `select` iterators are modelled as pre-order traversals of the
  subtree of the node they are called on (`select_first_class`,
  `select_all_desc`, ...).  The CSS descendant combinator `.c tag` is
  modelled with a flag recording whether a strict ancestor within the
  traversed subtree carries class `c`.
* The Rust code mutates one shared document in place; following the spec's
  design note the embedding builds new trees by copying retained
  substructure.  Each `extract_lyric_*` returns the transformed subtree.
* A `.unwrap()` on a missing node is a Rust panic; panics and `?`-errors both
  abort the whole run (`collect::<Result<_>>` stops at the first `Err`, a
  panic unwinds), so both are constructors of `RunError` and `run_songs`
  stops at the first one.
* The network is an oracle `Env` giving the parsed search page for a
  (title, artist) pair and the parsed page of a URL; transport faults are
  `RunError.fetchFailed`.  The filesystem is an association list of
  filename/content pairs threaded through the run, and network requests are
  counted so that "zero additional network calls" is a statement of the
  model.
-/

/-- An HTML node: text, or an element with tag, classes, attributes and
children. -/
inductive Node where
  | text (s : String)
  | elem (tag : String) (classes : List String) (attrs : List (String × String)) (children : List Node)

/-- The children of a node (a text node has none). -/
def Node.children : Node → List Node
  | .text _ => []
  | .elem _ _ _ ch => ch

/-- Attribute lookup, `attributes.get(name)` in kuchiki. -/
def Node.getAttr (name : String) : Node → Option String
  | .text _ => none
  | .elem _ _ attrs _ => attrs.lookup name

mutual

/-- `node.select(".c").next()`: the first node of the subtree (pre-order,
the node itself included) carrying class `c`. -/
def select_first_class (c : String) : Node → Option Node
  | .text _ => none
  | .elem t cls attrs ch =>
    if cls.contains c then some (.elem t cls attrs ch)
    else select_first_class_list c ch

def select_first_class_list (c : String) : List Node → Option Node
  | [] => none
  | n :: ns =>
    match select_first_class c n with
    | some r => some r
    | none => select_first_class_list c ns

end

mutual

/-- `node.select(tag).next()`: the first element of the subtree (pre-order)
with the given tag. -/
def select_first_tag (tag : String) : Node → Option Node
  | .text _ => none
  | .elem t cls attrs ch =>
    if t == tag then some (.elem t cls attrs ch)
    else select_first_tag_list tag ch

def select_first_tag_list (tag : String) : List Node → Option Node
  | [] => none
  | n :: ns =>
    match select_first_tag tag n with
    | some r => some r
    | none => select_first_tag_list tag ns

end

/-- Does the node carry class `c`?  (Text nodes never do.) -/
def nodeHasClass (c : String) : Node → Bool
  | .text _ => false
  | .elem _ cls _ _ => cls.contains c

mutual

/-- Remove the first strict descendant (pre-order) of a node carrying class
`c`; `none` when no such descendant exists.  This is
`node.select(".c").next().unwrap().detach()` scoped to strict descendants. -/
def Node.removeDescendant (c : String) : Node → Option Node
  | .text _ => none
  | .elem t cls attrs ch =>
    (detach_first_class c ch).map (fun ch' => .elem t cls attrs ch')

/-- Remove from a child list the first node (pre-order) carrying class `c`;
`none` when no such node exists. -/
def detach_first_class (c : String) : List Node → Option (List Node)
  | [] => none
  | n :: ns =>
    if nodeHasClass c n then some ns
    else
      match n.removeDescendant c with
      | some n' => some (n' :: ns)
      | none => (detach_first_class c ns).map (fun ns' => n :: ns')

end

mutual

/-- All elements of the subtree matching the CSS selector `.c tag` in
pre-order: elements with the given tag having a strict ancestor (below the
traversal root) with class `c`.  `under` records whether such an ancestor
has already been passed. -/
def select_all_desc (c tag : String) (under : Bool) : Node → List Node
  | .text _ => []
  | .elem t cls attrs ch =>
    (if under && t == tag then [Node.elem t cls attrs ch] else [])
      ++ select_all_desc_list c tag (under || cls.contains c) ch

def select_all_desc_list (c tag : String) (under : Bool) : List Node → List Node
  | [] => []
  | n :: ns => select_all_desc c tag under n ++ select_all_desc_list c tag under ns

end

/-! ## Link rewriting (`extract_lyric_data`'s "Fix relative links" pass) -/

/-- `if let Some(href) = attrs.get_mut("href") { *href = format!("https://utaten.com{}", href) }`:
prefix the origin to the `href` attribute when present (kuchiki attribute
maps have unique keys; the model rewrites every `href` entry). -/
def rewriteHref (attrs : List (String × String)) : List (String × String) :=
  attrs.map (fun p => if p.1 == "href" then (p.1, "https://utaten.com" ++ p.2) else p)

mutual

/-- One pass of `lyric_data.select(".newLyricWork a").for_each(fix)`:
rewrite the `href` of every `a` element having a strict ancestor with class
`newLyricWork`, visiting each element once. -/
def fix_links (under : Bool) : Node → Node
  | .text s => .text s
  | .elem t cls attrs ch =>
    .elem t cls (if under && t == "a" then rewriteHref attrs else attrs)
      (fix_links_list (under || cls.contains "newLyricWork") ch)

def fix_links_list (under : Bool) : List Node → List Node
  | [] => []
  | n :: ns => fix_links under n :: fix_links_list under ns

end

/-- The `href` values carried by an attribute list. -/
def attrHrefs (attrs : List (String × String)) : List String :=
  attrs.filterMap (fun p => if p.1 == "href" then some p.2 else none)

mutual

/-- The `href`s of the `a` elements matched by `.newLyricWork a` (pre-order),
i.e. of the links the rewrite pass touches. -/
def hrefs_in_work (under : Bool) : Node → List String
  | .text _ => []
  | .elem t cls attrs ch =>
    (if under && t == "a" then attrHrefs attrs else [])
      ++ hrefs_in_work_list (under || cls.contains "newLyricWork") ch

def hrefs_in_work_list (under : Bool) : List Node → List String
  | [] => []
  | n :: ns => hrefs_in_work under n ++ hrefs_in_work_list under ns

end

mutual

/-- The `href`s of the `a` elements NOT matched by `.newLyricWork a`. -/
def hrefs_not_in_work (under : Bool) : Node → List String
  | .text _ => []
  | .elem t cls attrs ch =>
    (if !under && t == "a" then attrHrefs attrs else [])
      ++ hrefs_not_in_work_list (under || cls.contains "newLyricWork") ch

def hrefs_not_in_work_list (under : Bool) : List Node → List String
  | [] => []
  | n :: ns => hrefs_not_in_work under n ++ hrefs_not_in_work_list under ns

end

mutual

/-- All `href`s of `a` elements in the subtree, pre-order. -/
def all_hrefs : Node → List String
  | .text _ => []
  | .elem t _ attrs ch =>
    (if t == "a" then attrHrefs attrs else []) ++ all_hrefs_list ch

def all_hrefs_list : List Node → List String
  | [] => []
  | n :: ns => all_hrefs n ++ all_hrefs_list ns

end

/-! ## Errors, extraction and reassembly -/

/-- How one song's processing can die.  `panicked sel` is the Rust panic of
`.select(sel).next().unwrap()` on a page lacking the region (the code has no
dedicated extraction-error type); `fetchFailed` is a transport fault of
`reqwest` (`send()?` / `text()?`).  Both abort the whole run: the panic
unwinds, the error stops `collect::<Result<Vec<_>>>()` at that song. -/
inductive RunError where
  | fetchFailed
  | panicked (selector : String)
deriving DecidableEq

/-- `extract_lyric_title`: first `.newLyricTitle` region, with its first
`.newLyricTitle_afterTxt` descendant (the "の歌詞" suffix) detached.
Each missing node is an `unwrap` panic. -/
def extract_lyric_title (document : Node) : Except RunError Node :=
  match select_first_class "newLyricTitle" document with
  | none => .error (.panicked ".newLyricTitle")
  | some t =>
    match t.removeDescendant "newLyricTitle_afterTxt" with
    | none => .error (.panicked ".newLyricTitle_afterTxt")
    | some t' => .ok t'

/-- `extract_lyric_data`: first `.lyricData` region, with its first
`.newLyricWorkFooter` descendant (tags and action buttons) detached, then
the `href` of every `.newLyricWork a` link prefixed with the origin. -/
def extract_lyric_data (document : Node) : Except RunError Node :=
  match select_first_class "lyricData" document with
  | none => .error (.panicked ".lyricData")
  | some d =>
    match d.removeDescendant "newLyricWorkFooter" with
    | none => .error (.panicked ".newLyricWorkFooter")
    | some d' => .ok (fix_links false d')

/-- `extract_lyric_body`: first `.lyricBody` region, with its first
`.romaji` descendant (romanized reading) detached. -/
def extract_lyric_body (document : Node) : Except RunError Node :=
  match select_first_class "lyricBody" document with
  | none => .error (.panicked ".lyricBody")
  | some b =>
    match b.removeDescendant "romaji" with
    | none => .error (.panicked ".romaji")
    | some b' => .ok b'

/-- `article.children().for_each(|c| c.detach())`. -/
def clearChildren : Node → Node
  | .text s => .text s
  | .elem t cls attrs _ => .elem t cls attrs []

/-- `parent.append(child)`. -/
def appendChild (child : Node) : Node → Node
  | .text s => .text s
  | .elem t cls attrs ch => .elem t cls attrs (ch ++ [child])

/-- The trailing `<div class="page-break">` marker appended after the three
fragments. -/
def pageBreakNode : Node :=
  .elem "div" ["page-break"] [("class", "page-break")] []

/-- The pure part of `download_lyric` on an already fetched page: run the
three extractions (in source order: title, data, body), take the first
`article` element, detach all its children and append title, data, body and
the page-break marker. -/
def assemble_article (document : Node) : Except RunError Node :=
  match extract_lyric_title document with
  | .error e => .error e
  | .ok t =>
    match extract_lyric_data document with
    | .error e => .error e
    | .ok d =>
      match extract_lyric_body document with
      | .error e => .error e
      | .ok b =>
        match select_first_tag "article" document with
        | none => .error (.panicked "article")
        | some article =>
          .ok (appendChild pageBreakNode
                (appendChild b (appendChild d (appendChild t (clearChildren article)))))

mutual

/-- `article.serialize(&mut html)`: plain markup serialization of the model
(attribute escaping elided). -/
def serializeNode : Node → String
  | .text s => s
  | .elem t _ attrs ch =>
    "<" ++ t ++ serializeAttrs attrs ++ ">" ++ serializeList ch ++ "</" ++ t ++ ">"

def serializeAttrs : List (String × String) → String
  | [] => ""
  | (k, v) :: rest => " " ++ k ++ "=\x22" ++ v ++ "\x22" ++ serializeAttrs rest

def serializeList : List Node → String
  | [] => ""
  | n :: ns => serializeNode n ++ serializeList ns

end

/-! ## Filenames and query splitting -/

/-- `song.replace(" / ", " - ")`: replace every (leftmost, non-overlapping)
occurrence of the three-character separator `" / "` with `" - "`. -/
def replaceSep : List Char → List Char
  | ' ' :: '/' :: ' ' :: rest => ' ' :: '-' :: ' ' :: replaceSep rest
  | c :: rest => c :: replaceSep rest
  | [] => []

/-- `lyric_filename`: `format!("lyrics/{}.html", song.replace(" / ", " - "))`. -/
def lyric_filename (song : String) : String :=
  "lyrics/" ++ String.mk (replaceSep song.data) ++ ".html"

/-- `str::split_once` at the first occurrence of a single character:
`some (before, after)`, or `none` when the character is absent. -/
def splitOnceChar (c : Char) : List Char → Option (List Char × List Char)
  | [] => none
  | x :: xs =>
    if x = c then some ([], xs)
    else (splitOnceChar c xs).map (fun p => (x :: p.1, p.2))

/-- `song.split_once("/").unwrap_or_else(|| (song, ""))`: the (title, artist)
pair sent as search parameters, with no trimming. -/
def splitQuery (song : String) : String × String :=
  match splitOnceChar '/' song.data with
  | some p => (String.mk p.1, String.mk p.2)
  | none => (song, "")


/-! ## Network oracle, filesystem and the per-song pipeline of `main` -/

/-- The network boundary: the parsed HTML of the search listing for a
(title, artist) parameter pair, and the parsed HTML of an arbitrary URL.
`.error .fetchFailed` is a transport fault of either `GET`. -/
structure Env where
  searchPage : String × String → Except RunError Node
  fetchPage : String → Except RunError Node

/-- The output directory: an association list from filename to serialized
content, newest write first. -/
abbrev Files := List (String × String)

/-- `Path::new(&filename).exists()`. -/
def fileExists (files : Files) (name : String) : Bool :=
  (List.lookup name files).isSome

/-- `fs::write(&filename, html)`. -/
def writeFile (files : Files) (name content : String) : Files :=
  (name, content) :: files

/-- The first link of the search listing, `.select(".searchResult__title a").next()`. -/
def first_result_link (page : Node) : Option Node :=
  (select_all_desc "searchResult__title" "a" false page).head?

/-- `search_song`: split the query at the first `/`, fetch the search
listing, and return the absolute URL `https://utaten.com{href}` of the first
result's link, `none` when the listing has no result.  The `unwrap` on a
link without `href` is a panic. -/
def search_song (env : Env) (song : String) : Except RunError (Option String) :=
  match env.searchPage (splitQuery song) with
  | .error e => .error e
  | .ok page =>
    match first_result_link page with
    | none => .ok none
    | some link =>
      match link.getAttr "href" with
      | none => .error (.panicked "href")
      | some path => .ok (some ("https://utaten.com" ++ path))

/-- `download_lyric`: fetch the page, assemble the pruned article, serialize
it and write it to `lyric_filename song`; returns the filename and the new
filesystem. -/
def download_lyric (env : Env) (files : Files) (url song : String) :
    Except RunError (String × Files) :=
  match env.fetchPage url with
  | .error e => .error e
  | .ok page =>
    match assemble_article page with
    | .error e => .error e
    | .ok article =>
      let filename := lyric_filename song
      .ok (filename, writeFile files filename (serializeNode article))

/-- One iteration of the per-song closure in `main`: the outcome
(`some filename` for skipped or downloaded, `none` for not found, `.error`
for an abort), the filesystem afterwards, and the number of network
requests made (0 on skip, 1 for the search, 2 when the page is fetched
too).  The filename-existence check comes first and short-circuits
everything else. -/
def process_song (env : Env) (files : Files) (song : String) :
    Except RunError (Option String) × Files × Nat :=
  let filename := lyric_filename song
  if fileExists files filename then (.ok (some filename), files, 0)
  else
    match search_song env song with
    | .error e => (.error e, files, 1)
    | .ok none => (.ok none, files, 1)
    | .ok (some url) =>
      match download_lyric env files url song with
      | .error e => (.error e, files, 2)
      | .ok (filename', files') => (.ok (some filename'), files', 2)

/-- The song loop of `main` (`read_lines(..).map(..).collect::<Result<_>>()`):
process the songs in order, stopping at the first error or panic; returns
the outcome list (when the run completes), the filesystem at the end or at
the abort point, and the total number of network requests. -/
def run_songs (env : Env) (files : Files) :
    List String → Except RunError (List (Option String)) × Files × Nat
  | [] => (.ok [], files, 0)
  | song :: rest =>
    match process_song env files song with
    | (.error e, files', n) => (.error e, files', n)
    | (.ok out, files', n) =>
      match run_songs env files' rest with
      | (r, files'', m) => (r.map (out :: ·), files'', n + m)

/-- `songs.into_iter().filter_map(|x| x)`: the manifest of filenames handed
to pandoc; `none` (not found) outcomes are dropped. -/
def manifest (outs : List (Option String)) : List String :=
  outs.filterMap id

/-! ## Fixture pages, fragments and network oracles -/

/-- A title region as served by the site: the bare title plus the
`newLyricTitle_afterTxt` suffix label. -/
def titleRegion : Node :=
  .elem "h2" ["newLyricTitle"] []
    [.text "Song Title", .elem "span" ["newLyricTitle_afterTxt"] [] [.text "の歌詞"]]

/-- The title fragment after extraction: suffix label removed. -/
def titleFragW : Node :=
  .elem "h2" ["newLyricTitle"] [] [.text "Song Title"]

/-- A metadata region: a `newLyricWork` block holding a relative link, and a
`newLyricWorkFooter` block of action buttons. -/
def dataRegion : Node :=
  .elem "div" ["lyricData"] []
    [.elem "div" ["newLyricWork"] []
      [.elem "a" [] [("href", "/lyric/123")] [.text "Artist"]],
     .elem "div" ["newLyricWorkFooter"] [] [.text "tags and buttons"]]

/-- The metadata region with the footer removed but links untouched. -/
def dataNoFooter : Node :=
  .elem "div" ["lyricData"] []
    [.elem "div" ["newLyricWork"] []
      [.elem "a" [] [("href", "/lyric/123")] [.text "Artist"]]]

/-- The metadata fragment after extraction: footer removed, link absolute. -/
def dataFragW : Node :=
  .elem "div" ["lyricData"] []
    [.elem "div" ["newLyricWork"] []
      [.elem "a" [] [("href", "https://utaten.com/lyric/123")] [.text "Artist"]]]

/-- A body region: primary-script lyrics plus an embedded `romaji` block. -/
def bodyRegion : Node :=
  .elem "div" ["lyricBody"] []
    [.text "歌詞本文", .elem "div" ["romaji"] [] [.text "kashi honbun"]]

/-- The body fragment after extraction: `romaji` block removed. -/
def bodyFragW : Node :=
  .elem "div" ["lyricBody"] [] [.text "歌詞本文"]

/-- A complete, well-formed lyrics page. -/
def fullPage : Node :=
  .elem "html" [] []
    [.elem "body" [] []
      [.elem "article" [] [] [titleRegion, dataRegion, bodyRegion]]]

/-- A lyrics page whose body region is absent (layout mismatch). -/
def noBodyPage : Node :=
  .elem "html" [] []
    [.elem "body" [] []
      [.elem "article" [] [] [titleRegion, dataRegion]]]

/-- A lyrics page whose metadata region holds a path-relative link that sits
directly under `.lyricData`, outside any `.newLyricWork` block. -/
def strayLinkPage : Node :=
  .elem "html" [] []
    [.elem "body" [] []
      [.elem "article" [] []
        [.elem "div" ["lyricData"] []
          [.elem "div" ["newLyricWorkFooter"] [] [.text "tags"],
           .elem "a" [] [("href", "/lyric/123")] [.text "stray link"]]]]]

/-- The first result link of `searchListing`. -/
def resultLink : Node :=
  .elem "a" [] [("href", "/lyric/123")] [.text "Song Title"]

/-- A search listing with one result. -/
def searchListing : Node :=
  .elem "html" [] []
    [.elem "body" [] []
      [.elem "h3" ["searchResult__title"] [] [resultLink]]]

/-- A search listing with no result. -/
def emptyListing : Node :=
  .elem "html" [] [] [.elem "body" [] [] [.text "0 results"]]

/-- Oracle: every search finds `searchListing`, every page is `fullPage`. -/
def envOk : Env := ⟨fun _ => .ok searchListing, fun _ => .ok fullPage⟩

/-- Oracle: every search returns the empty listing. -/
def envNotFound : Env := ⟨fun _ => .ok emptyListing, fun _ => .ok fullPage⟩

/-- Oracle: searches succeed but every lyrics page lacks the body region. -/
def envNoBody : Env := ⟨fun _ => .ok searchListing, fun _ => .ok noBodyPage⟩

/-- Oracle: every request is a transport fault. -/
def envFetchFail : Env := ⟨fun _ => .error .fetchFailed, fun _ => .error .fetchFailed⟩

/-- The output directory after downloading "Song A / B" into an empty one. -/
def filesW9 : Files := (process_song envOk [] "Song A / B").2.1

/-! ## Helper lemmas -/

theorem replaceSep_no_slash (l : List Char) (h : '/' ∉ l) : replaceSep l = l := by
  induction l using replaceSep.induct with
  | case1 rest ih => simp at h
  | case2 c rest hne ih =>
    rw [replaceSep.eq_2 c rest hne]
    have : '/' ∉ rest := fun hr => h (List.mem_cons_of_mem _ hr)
    rw [ih this]
  | case3 => rfl

theorem replaceSep_sep (t a : List Char) (ht : '/' ∉ t) (ha : '/' ∉ a) :
    replaceSep (t ++ ' ' :: '/' :: ' ' :: a) = t ++ ' ' :: '-' :: ' ' :: a := by
  induction t with
  | nil => simp [replaceSep, replaceSep_no_slash a ha]
  | cons c rest ih =>
    have hr : '/' ∉ rest := fun h => ht (List.mem_cons_of_mem _ h)
    have hne : ∀ (r : List Char), c = ' ' →
        rest ++ ' ' :: '/' :: ' ' :: a = '/' :: ' ' :: r → False := by
      intro r hc' hEq
      cases rest with
      | nil => simp at hEq
      | cons d rs2 =>
        have hd : d = '/' := by
          have := congrArg List.head? hEq
          simpa using this
        exact hr (hd ▸ List.mem_cons_self d rs2)
    rw [List.cons_append, replaceSep.eq_2 _ _ hne, ih hr, List.cons_append]

theorem str_data_append (s t : String) : (s ++ t).data = s.data ++ t.data := by
  cases s; cases t; rfl

theorem str_mk_data (s : String) : String.mk s.data = s := rfl

theorem splitOnceChar_none (c : Char) (l : List Char) (h : c ∉ l) :
    splitOnceChar c l = none := by
  induction l with
  | nil => rfl
  | cons x xs ih =>
    have hx : x ≠ c := fun he => h (he ▸ List.mem_cons_self x xs)
    have : c ∉ xs := fun hm => h (List.mem_cons_of_mem _ hm)
    simp [splitOnceChar, hx, ih this]

theorem splitOnceChar_found (c : Char) (l1 l2 : List Char) (h : c ∉ l1) :
    splitOnceChar c (l1 ++ c :: l2) = some (l1, l2) := by
  induction l1 with
  | nil => simp [splitOnceChar]
  | cons x xs ih =>
    have hx : x ≠ c := fun he => h (he ▸ List.mem_cons_self x xs)
    have : c ∉ xs := fun hm => h (List.mem_cons_of_mem _ hm)
    simp [splitOnceChar, hx, ih this]

theorem attrHrefs_rewriteHref (attrs : List (String × String)) :
    attrHrefs (rewriteHref attrs) =
      (attrHrefs attrs).map (fun h => "https://utaten.com" ++ h) := by
  induction attrs with
  | nil => rfl
  | cons p rest ih =>
    obtain ⟨k, v⟩ := p
    by_cases hk : k = "href" <;>
      simp [rewriteHref, attrHrefs, hk, List.filterMap_cons] at ih ⊢ <;>
      simpa [rewriteHref, attrHrefs] using ih

mutual

theorem hrefs_in_work_fix (u : Bool) (n : Node) :
    hrefs_in_work u (fix_links u n) =
      (hrefs_in_work u n).map (fun h => "https://utaten.com" ++ h) := by
  cases n with
  | text s => rfl
  | elem t cls attrs ch =>
    by_cases hu : (u && (t == "a")) = true <;>
      simp [fix_links, hrefs_in_work, hu, attrHrefs_rewriteHref] <;>
      exact hrefs_in_work_fix_list _ ch

theorem hrefs_in_work_fix_list (u : Bool) (ns : List Node) :
    hrefs_in_work_list u (fix_links_list u ns) =
      (hrefs_in_work_list u ns).map (fun h => "https://utaten.com" ++ h) := by
  cases ns with
  | nil => rfl
  | cons n ns =>
    simp [fix_links_list, hrefs_in_work_list, hrefs_in_work_fix u n,
      hrefs_in_work_fix_list u ns]

end

mutual

theorem hrefs_not_in_work_fix (u : Bool) (n : Node) :
    hrefs_not_in_work u (fix_links u n) = hrefs_not_in_work u n := by
  cases n with
  | text s => rfl
  | elem t cls attrs ch =>
    by_cases hu : (u && (t == "a")) = true
    · have hnu : (!u && (t == "a")) = false := by
        cases u <;> simp_all
      simp [fix_links, hrefs_not_in_work, hu, hnu]
      exact hrefs_not_in_work_fix_list _ ch
    · simp [fix_links, hrefs_not_in_work, hu]
      exact hrefs_not_in_work_fix_list _ ch

theorem hrefs_not_in_work_fix_list (u : Bool) (ns : List Node) :
    hrefs_not_in_work_list u (fix_links_list u ns) = hrefs_not_in_work_list u ns := by
  cases ns with
  | nil => rfl
  | cons n ns =>
    simp [fix_links_list, hrefs_not_in_work_list, hrefs_not_in_work_fix u n,
      hrefs_not_in_work_fix_list u ns]

end

theorem fileExists_writeFile (files : Files) (name content : String) :
    fileExists (writeFile files name content) name = true := by
  simp [fileExists, writeFile, List.lookup]

theorem process_song_skip (env : Env) (files : Files) (song : String)
    (hex : fileExists files (lyric_filename song) = true) :
    process_song env files song = (.ok (some (lyric_filename song)), files, 0) := by
  simp [process_song, hex]

theorem download_lyric_ok (env : Env) (files : Files) (url song fn : String) (fl : Files)
    (h : download_lyric env files url song = .ok (fn, fl)) :
    fn = lyric_filename song ∧ fileExists fl fn = true := by
  unfold download_lyric at h
  cases hp : env.fetchPage url with
  | error e => simp [hp] at h
  | ok page =>
    cases ha : assemble_article page with
    | error e => simp [hp, ha] at h
    | ok article =>
      simp [hp, ha] at h
      obtain ⟨h1, h2⟩ := h
      subst h1
      subst h2
      exact ⟨rfl, fileExists_writeFile _ _ _⟩

theorem process_song_some_file (env : Env) (files files' : Files) (song f : String) (n : Nat)
    (h : process_song env files song = (.ok (some f), files', n)) :
    f = lyric_filename song ∧ fileExists files' f = true := by
  unfold process_song at h
  by_cases hex : fileExists files (lyric_filename song) = true
  · simp [hex] at h
    obtain ⟨h1, h2, h3⟩ := h
    subst h1
    subst h2
    exact ⟨rfl, hex⟩
  · simp [hex] at h
    cases hs : search_song env song with
    | error e => simp [hs] at h
    | ok o =>
      cases o with
      | none => simp [hs] at h
      | some url =>
        simp [hs] at h
        cases hd : download_lyric env files url song with
        | error e => simp [hd] at h
        | ok pr =>
          obtain ⟨fn, fl⟩ := pr
          simp [hd] at h
          obtain ⟨h1, h2, h3⟩ := h
          rcases download_lyric_ok env files url song fn fl hd with ⟨hf1, hf2⟩
          refine ⟨?_, ?_⟩ <;> simp_all

theorem str_ext (x y : String) (h : x.data = y.data) : x = y := by
  cases x; cases y; exact congrArg String.mk h

theorem data_mk (l : List Char) : (String.mk l).data = l := rfl

theorem data_of_sep : (" / " : String).data = [' ', '/', ' '] := rfl

theorem data_of_dash : (" - " : String).data = [' ', '-', ' '] := rfl

theorem data_of_space : (" " : String).data = [' '] := rfl

/-! ## Claim C3 -/

/-- C3: for every query whose computed output filename already exists, the
catalog emits a skip immediately, without invoking the resolver or fetching
anything; a run over an already-populated output directory performs zero
network calls and leaves the files exactly as they were. -/
theorem skip_existing_idempotent (env : Env) (files : Files) (songs : List String)
    (h : ∀ s ∈ songs, fileExists files (lyric_filename s) = true) :
    run_songs env files songs =
      (.ok (songs.map (fun s => some (lyric_filename s))), files, 0) := by
  induction songs with
  | nil => rfl
  | cons s rest ih =>
    have hs : fileExists files (lyric_filename s) = true := h s (List.mem_cons_self s rest)
    have hrest := ih (fun x hx => h x (List.mem_cons_of_mem _ hx))
    simp [run_songs, process_song_skip env files s hs, hrest, Except.map]

/-- Witness for C3 at a concrete populated directory. -/
theorem skip_existing_idempotent_witness :
    run_songs envOk [("lyrics/Song A.html", "cached")] ["Song A"] =
      (.ok [some (lyric_filename "Song A")], [("lyrics/Song A.html", "cached")], 0) :=
  skip_existing_idempotent envOk [("lyrics/Song A.html", "cached")] ["Song A"] (by decide)

theorem lyric_filename_sep (t a : String) (ht : '/' ∉ t.data) (ha : '/' ∉ a.data) :
    lyric_filename (t ++ " / " ++ a) = "lyrics/" ++ t ++ " - " ++ a ++ ".html" := by
  apply str_ext
  have hrw := replaceSep_sep t.data a.data ht ha
  simp [lyric_filename, str_data_append, data_mk, data_of_sep, data_of_dash] at hrw ⊢
  simp [hrw]

theorem lyric_filename_no_slash (s : String) (hs : '/' ∉ s.data) :
    lyric_filename s = "lyrics/" ++ s ++ ".html" := by
  apply str_ext
  simp [lyric_filename, str_data_append, data_mk, replaceSep_no_slash s.data hs]

/-! ## Claim C4 -/

/-- C4: the derived output filename is `lyrics/` ++ query ++ `.html` with the
documented ` / ` separator replaced by the ` - ` delimiter: `"Song A"` gives
`lyrics/Song A.html`, `"Song A / Artist B"` gives
`lyrics/Song A - Artist B.html`, and in general a query `t / a` (slash-free
`t`, `a`) derives `lyrics/t - a.html` while a slash-free query `s` derives
`lyrics/s.html`. -/
theorem filename_derivation (t a s : String) (ht : '/' ∉ t.data) (ha : '/' ∉ a.data)
    (hs : '/' ∉ s.data) :
    lyric_filename "Song A" = "lyrics/Song A.html" ∧
    lyric_filename "Song A / Artist B" = "lyrics/Song A - Artist B.html" ∧
    lyric_filename (t ++ " / " ++ a) = "lyrics/" ++ t ++ " - " ++ a ++ ".html" ∧
    lyric_filename s = "lyrics/" ++ s ++ ".html" :=
  ⟨rfl, rfl, lyric_filename_sep t a ht ha, lyric_filename_no_slash s hs⟩

/-- Witness for C4 at concrete queries. -/
theorem filename_derivation_witness :
    lyric_filename "Song A" = "lyrics/Song A.html" ∧
    lyric_filename "Song A / Artist B" = "lyrics/Song A - Artist B.html" ∧
    lyric_filename ("Song B" ++ " / " ++ "Artist C") =
      "lyrics/" ++ "Song B" ++ " - " ++ "Artist C" ++ ".html" ∧
    lyric_filename "My Song" = "lyrics/" ++ "My Song" ++ ".html" :=
  filename_derivation "Song B" "Artist C" "My Song" (by decide) (by decide) (by decide)

/-! ## Claim C10 -/

/-- C10: the resolver splits the query at the first `/` with no trimming:
for `t / a` (with slash-free `t`) the title parameter is `t ++ " "` (ending
in a space) and the artist parameter is `" " ++ a` (beginning with a
space); a slash-free query is all title with the empty artist. -/
theorem split_query_no_trim (t a s : String) (ht : '/' ∉ t.data) (hs : '/' ∉ s.data) :
    splitQuery (t ++ " / " ++ a) = (t ++ " ", " " ++ a) ∧
    splitQuery s = (s, "") := by
  constructor
  · have hdata : (t ++ " / " ++ a).data = (t.data ++ [' ']) ++ '/' :: (' ' :: a.data) := by
      simp [str_data_append, data_of_sep]
    have hnot : '/' ∉ t.data ++ [' '] := by simp [ht]
    have hfound : splitOnceChar '/' (t.data ++ ' ' :: '/' :: ' ' :: a.data) =
        some (t.data ++ [' '], ' ' :: a.data) := by
      have hassoc : t.data ++ ' ' :: '/' :: ' ' :: a.data =
          (t.data ++ [' ']) ++ '/' :: (' ' :: a.data) := by simp
      rw [hassoc]
      exact splitOnceChar_found '/' _ _ hnot
    have e1 : String.mk (t.data ++ [' ']) = t ++ " " := by
      apply str_ext
      simp [str_data_append, data_mk, data_of_space]
    have e2 : String.mk (' ' :: a.data) = " " ++ a := by
      apply str_ext
      simp [str_data_append, data_mk, data_of_space]
    simp [splitQuery, hfound, e1, e2]
  · simp [splitQuery, splitOnceChar_none '/' s.data hs]

/-- Witness for C10 at a concrete query of the documented form. -/
theorem split_query_no_trim_witness :
    splitQuery ("Song A" ++ " / " ++ "Artist B") = ("Song A" ++ " ", " " ++ "Artist B") ∧
    splitQuery "Song A" = ("Song A", "") :=
  split_query_no_trim "Song A" "Artist B" "Song A" (by decide) (by decide)

/-! ## Claim C5 -/

/-- C5: for every successful extraction, the serialized container (the
`article` element) has as children exactly the title, metadata and body
fragments in that order followed by the page-break marker as last child;
whatever children (`prior`) the container had are detached first. -/
theorem pruned_article_children (doc t d b : Node)
    (tg : String) (cls : List String) (attrs : List (String × String)) (prior : List Node)
    (ht : extract_lyric_title doc = .ok t)
    (hd : extract_lyric_data doc = .ok d)
    (hb : extract_lyric_body doc = .ok b)
    (ha : select_first_tag "article" doc = some (.elem tg cls attrs prior)) :
    (assemble_article doc).map Node.children = .ok [t, d, b, pageBreakNode] := by
  simp [assemble_article, ht, hd, hb, ha, clearChildren, appendChild, Node.children, Except.map]

/-- Witness for C5 on the full fixture page, whose `article` has three prior
children. -/
theorem pruned_article_children_witness :
    (assemble_article fullPage).map Node.children =
      .ok [titleFragW, dataFragW, bodyFragW, pageBreakNode] :=
  pruned_article_children fullPage titleFragW dataFragW bodyFragW
    "article" [] [] [titleRegion, dataRegion, bodyRegion] (by rfl) (by rfl) (by rfl) (by rfl)

/-! ## Claim C6 -/

/-- C6: the resolver takes only the first result link of the listing and
returns `https://utaten.com` prefixed to its `href`; an empty listing gives
`.ok none` — a legitimate outcome, not an error. -/
theorem resolver_first_result (env : Env) (song : String) (page link : Node) (path : String)
    (hp : env.searchPage (splitQuery song) = .ok page) :
    (first_result_link page = none → search_song env song = .ok none) ∧
    (first_result_link page = some link → link.getAttr "href" = some path →
      search_song env song = .ok (some ("https://utaten.com" ++ path))) := by
  constructor
  · intro h0
    simp [search_song, hp, h0]
  · intro h1 h2
    simp [search_song, hp, h1, h2]

/-- Witness for C6: a listing with one result and an empty listing. -/
theorem resolver_first_result_witness :
    search_song envOk "Song A" = .ok (some "https://utaten.com/lyric/123") ∧
    search_song envNotFound "Song A" = .ok none :=
  ⟨(resolver_first_result envOk "Song A" searchListing resultLink "/lyric/123" rfl).2 rfl rfl,
   (resolver_first_result envNotFound "Song A" emptyListing resultLink "/lyric/123" rfl).1 rfl⟩

/-! ## Claim C7 -/

/-- C7: a song whose search has zero results yields the `none` (not-found)
outcome with one network call and no write; the run continues with the
remaining songs; and `none` outcomes are excluded from the manifest. -/
theorem not_found_scoped (env : Env) (files : Files) (song : String) (rest : List String)
    (hex : fileExists files (lyric_filename song) = false)
    (hnf : search_song env song = .ok none) :
    process_song env files song = (.ok none, files, 1) ∧
    run_songs env files (song :: rest) =
      ((run_songs env files rest).1.map (fun outs => none :: outs),
        (run_songs env files rest).2.1,
        1 + (run_songs env files rest).2.2) ∧
    (∀ outs : List (Option String), manifest (none :: outs) = manifest outs) := by
  have hps : process_song env files song = (.ok none, files, 1) := by
    simp [process_song, hex, hnf]
  refine ⟨hps, ?_, ?_⟩
  · rcases hr : run_songs env files rest with ⟨r, files'', m⟩
    simp [run_songs, hps, hr]
  · intro outs
    simp [manifest]

/-- Witness for C7: the first song is not found, the second is still
processed. -/
theorem not_found_scoped_witness :
    process_song envNotFound [] "S1" = (.ok none, [], 1) ∧
    run_songs envNotFound [] ["S1", "S2"] =
      ((run_songs envNotFound [] ["S2"]).1.map (fun outs => none :: outs),
        (run_songs envNotFound [] ["S2"]).2.1,
        1 + (run_songs envNotFound [] ["S2"]).2.2) ∧
    (∀ outs : List (Option String), manifest (none :: outs) = manifest outs) :=
  not_found_scoped envNotFound [] "S1" ["S2"] rfl rfl

/-! ## Claim C1 -/

/-- Counterexample to C1 as stated: on a page lacking the body region, the
code does not return a `MissingRegion("body")` value that is fatal only for
that song — the `unwrap` panics and the whole run aborts.  With two songs
and every page lacking `.lyricBody`, the run ends in the panic after two
network calls: no outcome list is produced, no file is written, and the
second song is never processed. -/
theorem missing_body_aborts_cex :
    run_songs envNoBody [] ["S1", "S2"] = (.error (.panicked ".lyricBody"), [], 2) := by rfl

/-- C1 (amended): when a fetched page lacks the body region (and the title
and metadata extractions succeed), `extract_lyric_body`'s `unwrap` panics;
the panic aborts the entire run — the remaining songs are not processed —
and the filesystem is left as it was, so no output file is produced for the
song. -/
theorem missing_region_aborts_run (env : Env) (files : Files) (song url : String)
    (doc t d : Node) (rest : List String)
    (hex : fileExists files (lyric_filename song) = false)
    (hs : search_song env song = .ok (some url))
    (hf : env.fetchPage url = .ok doc)
    (ht : extract_lyric_title doc = .ok t)
    (hd : extract_lyric_data doc = .ok d)
    (hb : select_first_class "lyricBody" doc = none) :
    run_songs env files (song :: rest) = (.error (.panicked ".lyricBody"), files, 2) := by
  have hbody : extract_lyric_body doc = .error (.panicked ".lyricBody") := by
    simp [extract_lyric_body, hb]
  have hdl : download_lyric env files url song = .error (.panicked ".lyricBody") := by
    simp [download_lyric, assemble_article, hf, ht, hd, hbody]
  simp [run_songs, process_song, hex, hs, hdl]

/-- Witness for the amended C1 on the concrete no-body fixture. -/
theorem missing_region_aborts_run_witness :
    run_songs envNoBody [] ["Song A"] = (.error (.panicked ".lyricBody"), [], 2) :=
  missing_region_aborts_run envNoBody [] "Song A" "https://utaten.com/lyric/123"
    noBodyPage titleFragW dataFragW [] (by rfl) (by rfl) (by rfl) (by rfl) (by rfl) (by rfl)

/-! ## Claim C2 -/

/-- Counterexample to C2 as stated: a path-relative link contained in the
metadata region but outside the `.newLyricWork` sub-region is NOT rewritten
— metadata extraction succeeds and the extracted fragment still carries the
relative `href` `/lyric/123` (whose first character is `/`). -/
theorem stray_relative_link_cex :
    (extract_lyric_data strayLinkPage).map all_hrefs = .ok ["/lyric/123"] ∧
    "/lyric/123".data.head? = some '/' := ⟨by rfl, by rfl⟩

/-- C2 (amended): during metadata extraction, after the footer is removed,
the links matched by `.newLyricWork a` each have their `href` prefixed with
`https://utaten.com` exactly once (the href multiset is mapped one-for-one
by the prefixing), while the `href`s of links outside the `.newLyricWork`
sub-region are left unchanged. -/
theorem link_rewrite_scope (doc d0 d1 : Node)
    (h0 : select_first_class "lyricData" doc = some d0)
    (h1 : d0.removeDescendant "newLyricWorkFooter" = some d1) :
    extract_lyric_data doc = .ok (fix_links false d1) ∧
    hrefs_in_work false (fix_links false d1) =
      (hrefs_in_work false d1).map (fun h => "https://utaten.com" ++ h) ∧
    hrefs_not_in_work false (fix_links false d1) = hrefs_not_in_work false d1 := by
  refine ⟨?_, hrefs_in_work_fix false d1, hrefs_not_in_work_fix false d1⟩
  simp [extract_lyric_data, h0, h1]

/-- Witness for the amended C2 on the full fixture page, whose
`.newLyricWork` block holds the relative link `/lyric/123`. -/
theorem link_rewrite_scope_witness :
    extract_lyric_data fullPage = .ok (fix_links false dataNoFooter) ∧
    hrefs_in_work false (fix_links false dataNoFooter) =
      (hrefs_in_work false dataNoFooter).map (fun h => "https://utaten.com" ++ h) ∧
    hrefs_not_in_work false (fix_links false dataNoFooter) =
      hrefs_not_in_work false dataNoFooter :=
  link_rewrite_scope fullPage dataRegion dataNoFooter (by rfl) (by rfl)

/-! ## Claim C8 -/

/-- Counterexample to C8 as stated: a transport fault on the first song's
search is fatal for the whole run, not just for that song — the run stops
with the error after one network call and the second song is never
processed. -/
theorem fetch_fault_aborts_cex :
    run_songs envFetchFail [] ["S1", "S2"] = (.error .fetchFailed, [], 1) := by rfl

/-- C8 (amended): any error of a song's processing (transport fault on
search or page retrieval, or a panic) propagates as the run's result: the
run aborts immediately with that error and the remaining songs are not
processed. -/
theorem fetch_fault_aborts_run (env : Env) (files : Files) (song : String)
    (rest : List String) (e : RunError) (files' : Files) (n : Nat)
    (h : process_song env files song = (.error e, files', n)) :
    run_songs env files (song :: rest) = (.error e, files', n) := by
  simp [run_songs, h]

/-- Witness for the amended C8 on the all-faults oracle. -/
theorem fetch_fault_aborts_run_witness :
    run_songs envFetchFail [] ["A", "B", "C"] = (.error .fetchFailed, [], 1) :=
  fetch_fault_aborts_run envFetchFail [] "A" ["B", "C"] .fetchFailed [] 1 (by rfl)

/-! ## Claim C9 -/

/-- C9: the filename derivation is not injective — the distinct queries
`"Song A / B"` and `"Song A - B"` derive the same filename — so once the
first of the two has been downloaded (or already existed), processing the
second is a skip: zero network calls, no resolution, no write. -/
theorem filename_collision_skips_later (env : Env) (files files' : Files) (n : Nat)
    (h : process_song env files "Song A / B" =
      (.ok (some (lyric_filename "Song A / B")), files', n)) :
    lyric_filename "Song A / B" = lyric_filename "Song A - B" ∧
    ("Song A / B" : String) ≠ "Song A - B" ∧
    process_song env files' "Song A - B" =
      (.ok (some (lyric_filename "Song A - B")), files', 0) := by
  have hcol : lyric_filename "Song A / B" = lyric_filename "Song A - B" := by decide
  obtain ⟨hf1, hf2⟩ := process_song_some_file env files files' "Song A / B" _ n h
  refine ⟨hcol, by decide, ?_⟩
  have hex : fileExists files' (lyric_filename "Song A - B") = true := by
    rw [← hcol]
    exact hf2
  exact process_song_skip env files' "Song A - B" hex

/-- Witness for C9: after downloading `"Song A / B"` into an empty
directory, `"Song A - B"` is treated as already downloaded. -/
theorem filename_collision_skips_later_witness :
    lyric_filename "Song A / B" = lyric_filename "Song A - B" ∧
    ("Song A / B" : String) ≠ "Song A - B" ∧
    process_song envOk filesW9 "Song A - B" =
      (.ok (some (lyric_filename "Song A - B")), filesW9, 0) :=
  filename_collision_skips_later envOk [] filesW9 2 (by rfl)
